import Mathlib

/-!
Verification of the allowance-ledger app (`src/app.py`).

The app keeps its whole state in one pandas `DataFrame` with columns
`date, type, category, amount, note`, stored in the Streamlit session.
The embedding models that frame as a list of rows whose cells carry the
dynamic values a pandas cell can hold here: a string, a float (modelled
as `ℚ`), a timestamp (calendar date), or NaN/NaT.  The four state
transitions of the app — the add-entry form, the delete button, the CSV
upload and the CSV download — are translated below, together with the
summary aggregations (totals, balance, cumulative balance series).
-/

namespace MoneyApp

/-- A pandas cell: a string, a number (float modelled as `ℚ`), a timestamp
(calendar date encoded as `y*10000 + m*100 + d`, order-isomorphic to
dates), or NaN/NaT. -/
inductive Cell where
  | str (s : String)
  | num (q : ℚ)
  | dt (k : Int)
  | nan
deriving DecidableEq

/-- One row of the session frame, columns in the app's order. -/
structure Row where
  date : Cell
  type : Cell
  category : Cell
  amount : Cell
  note : Cell
deriving DecidableEq

abbrev DataFrame := List Row

/-! ### String helpers

Core string functions such as `String.splitOn` use well-founded recursion,
which the kernel cannot always evaluate; everything here recurses
structurally on the character list instead so that concrete instances of
the theorems below reduce. -/

/-- Python `str.strip()` on the character list of a string. -/
def trimChars (l : List Char) : List Char :=
  ((l.dropWhile Char.isWhitespace).reverse.dropWhile Char.isWhitespace).reverse

/-- Python `str.strip()`. -/
def pyStrip (s : String) : String := String.mk (trimChars s.toList)

def digitVal (c : Char) : Nat := c.toNat - 48

def digitsToNat (l : List Char) : Nat := l.foldl (fun a c => a * 10 + digitVal c) 0

/-- Parse a nonempty all-digit character list as a natural number. -/
def parseNatChars? (l : List Char) : Option Nat :=
  if l.isEmpty then none
  else if l.all Char.isDigit then some (digitsToNat l) else none

/-- Split a character list at every occurrence of `c` (like `str.split`). -/
def splitOnChar (c : Char) : List Char → List (List Char)
  | [] => [[]]
  | x :: xs =>
    let r := splitOnChar c xs
    if x = c then [] :: r
    else
      match r with
      | [] => [[x]]
      | h :: t => (x :: h) :: t

/-- The numeric conversion `pandas.read_csv` applies to a CSV cell:
an optional minus sign, an integer part, and an optional decimal part. -/
def parseNumChars? (l : List Char) : Option ℚ :=
  let p : Bool × List Char :=
    match l with
    | '-' :: rest => (true, rest)
    | _ => (false, l)
  match splitOnChar '.' p.2 with
  | [a] => (parseNatChars? a).map (fun n => if p.1 then -(n : ℚ) else (n : ℚ))
  | [a, b] =>
    match parseNatChars? a, parseNatChars? b with
    | some n, some f =>
      let q : ℚ := (n : ℚ) + (f : ℚ) / ((10 : ℚ) ^ b.length)
      some (if p.1 then -q else q)
    | _, _ => none
  | _ => none

def parseNum? (s : String) : Option ℚ := parseNumChars? s.toList

/-- `pandas.to_datetime` on an ISO `YYYY-MM-DD` string; the timestamp is
encoded as `y*10000 + m*100 + d` (order-isomorphic to calendar dates). -/
def parseDate? (s : String) : Option Int :=
  match splitOnChar '-' s.toList with
  | [y, m, d] =>
    match parseNatChars? y, parseNatChars? m, parseNatChars? d with
    | some yn, some mn, some dn =>
      if y.length = 4 ∧ 1 ≤ mn ∧ mn ≤ 12 ∧ 1 ≤ dn ∧ dn ≤ 31 then
        some ((yn : Int) * 10000 + (mn : Int) * 100 + (dn : Int))
      else none
    | _, _, _ => none
  | _ => none

def pad2 (n : Nat) : String := if n < 10 then "0" ++ toString n else toString n

def pad4 (n : Nat) : String :=
  if n < 10 then "000" ++ toString n
  else if n < 100 then "00" ++ toString n
  else if n < 1000 then "0" ++ toString n
  else toString n

/-- `DataFrame.to_csv` prints an all-midnight datetime column date-only,
as `YYYY-MM-DD`. -/
def serializeDate (k : Int) : String :=
  pad4 (k / 10000).toNat ++ "-" ++ pad2 ((k % 10000) / 100).toNat ++ "-" ++ pad2 (k % 100).toNat

/-- CSV text of a float amount.  Integral rationals (the only amounts the
entry form produces, and the exact floats of whole currency units) print
as their integer; other rationals are not exactly representable CSV
floats and print to a fallback that deliberately does not re-parse. -/
def serializeNum (q : ℚ) : String :=
  if q.den = 1 then toString q.num else toString q.num ++ "/" ++ toString q.den

/-- `to_csv` cell text: NaN prints as the empty field (`na_rep` default). -/
def serializeCell : Cell → String
  | .str s => s
  | .num q => serializeNum q
  | .dt k => serializeDate k
  | .nan => ""

/-! ### CSV files and the upload/download handlers -/

/-- An uploaded/downloaded CSV file: a header line and data rows, each row a
list of raw cell strings aligned with the header. -/
structure CSVFile where
  header : List String
  rows : List (List String)
deriving DecidableEq

/-- The columns `app.py` requires of an upload (line 49) and writes on
download. -/
def requiredCols : List String := ["date", "type", "category", "amount", "note"]

def colIdx (header : List String) (name : String) : Nat :=
  header.findIdx (fun c => c == name)

/-- The raw strings of one named column. -/
def colRaw (f : CSVFile) (name : String) : List String :=
  f.rows.map (fun r => r.getD (colIdx f.header name) "")

/-- `read_csv` column dtype inference: a column whose every cell is empty or
numeric becomes a numeric column (empty cells become NaN); otherwise it
stays an object column of strings (empty cells still become NaN, the
default `na_filter`). -/
def inferColumn (col : List String) : List Cell :=
  if col.all (fun s => s == "" || (parseNum? s).isSome) then
    col.map (fun s =>
      if s = "" then Cell.nan
      else
        match parseNum? s with
        | some q => Cell.num q
        | none => Cell.str s)
  else
    col.map (fun s => if s = "" then Cell.nan else Cell.str s)

/-- `parse_dates=["date"]`: the column is converted to datetimes when every
cell parses (empty cells become NaT, modelled as NaN); a column with any
unparseable date is left to the generic inference unchanged (pandas raises
no error for it). -/
def parseDateColumn (col : List String) : List Cell :=
  if col.all (fun s => s == "" || (parseDate? s).isSome) then
    col.map (fun s =>
      if s = "" then Cell.nan
      else
        match parseDate? s with
        | some k => Cell.dt k
        | none => Cell.str s)
  else inferColumn col

def zipRows : List Cell → List Cell → List Cell → List Cell → List Cell → DataFrame
  | d :: ds, t :: ts, c :: cs, a :: amts, n :: ns =>
    { date := d, type := t, category := c, amount := a, note := n } :: zipRows ds ts cs amts ns
  | _, _, _, _, _ => []

/-- The frame `read_csv` builds from an upload with a parseable schema,
restricted to the five required columns (line 50 selects exactly them). -/
def buildRows (f : CSVFile) : DataFrame :=
  zipRows (parseDateColumn (colRaw f "date")) (inferColumn (colRaw f "type"))
    (inferColumn (colRaw f "category")) (inferColumn (colRaw f "amount"))
    (inferColumn (colRaw f "note"))

inductive ImportResult where
  /-- the sidebar success message -/
  | success
  /-- the error for a missing required column (line 53) -/
  | schemaMismatch
  /-- the `except` branch error (line 55) -/
  | loadFailure
deriving DecidableEq

/-- The CSV upload handler (`app.py` lines 45–55).  `read_csv` with
`parse_dates=["date"]` raises when no `date` column exists, which the
`except` branch turns into the generic load-failure error; otherwise the
required-column check either wholesale-replaces the session data or
reports the missing-column error, leaving the data untouched. -/
def importCSV (data : DataFrame) (f : CSVFile) : DataFrame × ImportResult :=
  if "date" ∈ f.header then
    if requiredCols.all (fun c => f.header.contains c) then
      (buildRows f, ImportResult.success)
    else (data, ImportResult.schemaMismatch)
  else (data, ImportResult.loadFailure)

/-! ### Sorting

The display view sorts by date (`sort_values`, line 65 descending for the
table, line 104 ascending for the time series).  The pandas default sort
kind is an unstable quicksort, so the source fixes no order between rows
of equal date; the model uses an insertion sort on the date key, and every
theorem below relies only on the result being a permutation of the
input. -/

def dateKey (r : Row) : Int :=
  match r.date with
  | .dt k => k
  | _ => 0

def insertDesc (r : Row) : DataFrame → DataFrame
  | [] => [r]
  | x :: xs => if dateKey r ≤ dateKey x then x :: insertDesc r xs else r :: x :: xs

/-- `df.sort_values("date", ascending=False)` (line 65). -/
def sortDesc : DataFrame → DataFrame
  | [] => []
  | x :: xs => insertDesc x (sortDesc xs)

def insertAsc (r : Row) : DataFrame → DataFrame
  | [] => [r]
  | x :: xs => if dateKey x ≤ dateKey r then x :: insertAsc r xs else r :: x :: xs

/-- `df.sort_values("date")` ascending (lines 104 and 122). -/
def sortAsc : DataFrame → DataFrame
  | [] => []
  | x :: xs => insertAsc x (sortAsc xs)

/-- `df.sort_values("date")` applied to the displayed frame `df`, which is
itself the descending-date view of the session data. -/
def sortedView (data : DataFrame) : DataFrame := sortAsc (sortDesc data)

/-! ### The state transitions -/

/-- The add-entry form handler (`app.py` lines 29–40).  The amount widget
has `min_value=0` and integer steps, so the submitted amount is a natural
number (cast to float); a category blank after `strip()` falls back to
`"기타"`; the row is appended with `pd.concat(..., ignore_index=True)`. -/
def addEntry (data : DataFrame) (d : Int) (ty cat : String) (amt : Nat) (note : String) :
    DataFrame :=
  data ++ [{ date := Cell.dt d, type := Cell.str ty,
             category := Cell.str (if pyStrip cat = "" then "기타" else pyStrip cat),
             amount := Cell.num (amt : ℚ), note := Cell.str note }]

inductive DeleteResult where
  /-- the success message (line 76) -/
  | deleted
  /-- the warning `삭제할 항목을 하나 이상 선택하세요` (line 79) -/
  | nothingSelected
deriving DecidableEq

/-- `st.session_state.data.drop(index=to_delete)`: removes the rows whose
label in the *stored* frame — positional insertion order, since every
mutation ends in `reset_index(drop=True)` or `ignore_index=True` — is
among the selected indices. -/
def dropIndices (data : DataFrame) (idxs : List Nat) : DataFrame :=
  (data.enum.filter (fun p => !(idxs.contains p.1))).map (fun p => p.2)

/-- The delete-button handler (`app.py` lines 72–79).  The index options
offered to the user are those of the descending-date display view, but the
drop is applied to `st.session_state.data`. -/
def deleteByIndices (data : DataFrame) (idxs : List Nat) : DataFrame × DeleteResult :=
  if idxs.isEmpty then (data, DeleteResult.nothingSelected)
  else (dropIndices data idxs, DeleteResult.deleted)

/-- The CSV download (`app.py` line 122): the displayed frame `df` (already
sorted descending) re-sorted ascending by date and written without its
index, columns in the frame's order. -/
def exportCSV (data : DataFrame) : CSVFile :=
  { header := requiredCols,
    rows := (sortedView data).map (fun r =>
      [serializeCell r.date, serializeCell r.type, serializeCell r.category,
       serializeCell r.amount, serializeCell r.note]) }

/-- The operations a session can perform on its ledger state. -/
inductive Op where
  | add (d : Int) (ty cat : String) (amt : Nat) (note : String)
  | delete (idxs : List Nat)
  | importOp (f : CSVFile)

def step (data : DataFrame) : Op → DataFrame
  | .add d ty cat amt note => addEntry data d ty cat amt note
  | .delete idxs => (deleteByIndices data idxs).1
  | .importOp f => (importCSV data f).1

/-- The ledger state reached from the empty session frame (line 14) by a
sequence of operations. -/
def reach (ops : List Op) : DataFrame := ops.foldl step []

/-! ### The summary aggregations (`app.py` lines 83–107) -/

def cellNum : Cell → ℚ
  | .num q => q
  | _ => 0

def sumAmounts (rows : DataFrame) : ℚ := (rows.map (fun r => cellNum r.amount)).sum

/-- `df.loc[df["type"] == "수입", "amount"].sum()` (line 83), computed over
the displayed (descending-date) frame. -/
def total_income (data : DataFrame) : ℚ :=
  sumAmounts ((sortDesc data).filter (fun r => decide (r.type = Cell.str "수입")))

/-- `df.loc[df["type"] == "지출", "amount"].sum()` (line 84). -/
def total_expense (data : DataFrame) : ℚ :=
  sumAmounts ((sortDesc data).filter (fun r => decide (r.type = Cell.str "지출")))

/-- `balance = total_income - total_expense` (line 85). -/
def balance (data : DataFrame) : ℚ := total_income data - total_expense data

/-- Modelled from the spec §4.3: `totalByType(ledger, type)` is the sum of
`amount` over the entries matching `type` — stated over the ledger
snapshot itself, for comparison with the code's `total_income` and
`total_expense` above. -/
def totalByType (data : DataFrame) (t : String) : ℚ :=
  sumAmounts (data.filter (fun r => decide (r.type = Cell.str t)))

/-- Line 106: `r["amount"] if r["type"] == "수입" else -r["amount"]`. -/
def signedAmount (r : Row) : ℚ :=
  if r.type = Cell.str "수입" then cellNum r.amount else -(cellNum r.amount)

/-- `df_time = df.sort_values("date")` (line 104), `df` the displayed
descending view. -/
def dfTime (data : DataFrame) : DataFrame := sortedView data

def cumsumFrom (acc : ℚ) : List ℚ → List ℚ
  | [] => []
  | x :: xs => (acc + x) :: cumsumFrom (acc + x) xs

/-- `df_time["cumulative_balance"] = df_time["signed_amount"].cumsum()`
(line 107): the running totals of the time-sorted signed amounts. -/
def cumulativeBalances (data : DataFrame) : List ℚ :=
  cumsumFrom 0 ((dfTime data).map signedAmount)

/-! ### Permutation and sum lemmas -/

theorem insertDesc_perm (r : Row) (l : DataFrame) : (insertDesc r l).Perm (r :: l) := by
  induction l with
  | nil => exact List.Perm.refl _
  | cons x xs ih =>
    rw [insertDesc]
    split
    · exact (List.Perm.cons x ih).trans (List.Perm.swap r x xs)
    · exact List.Perm.refl _

theorem sortDesc_perm (l : DataFrame) : (sortDesc l).Perm l := by
  induction l with
  | nil => exact List.Perm.refl _
  | cons x xs ih => exact (insertDesc_perm x (sortDesc xs)).trans (List.Perm.cons x ih)

theorem insertAsc_perm (r : Row) (l : DataFrame) : (insertAsc r l).Perm (r :: l) := by
  induction l with
  | nil => exact List.Perm.refl _
  | cons x xs ih =>
    rw [insertAsc]
    split
    · exact (List.Perm.cons x ih).trans (List.Perm.swap r x xs)
    · exact List.Perm.refl _

theorem sortAsc_perm (l : DataFrame) : (sortAsc l).Perm l := by
  induction l with
  | nil => exact List.Perm.refl _
  | cons x xs ih => exact (insertAsc_perm x (sortAsc xs)).trans (List.Perm.cons x ih)

theorem sortedView_perm (l : DataFrame) : (sortedView l).Perm l :=
  (sortAsc_perm (sortDesc l)).trans (sortDesc_perm l)

theorem sumAmounts_perm {l₁ l₂ : DataFrame} (h : l₁.Perm l₂) : sumAmounts l₁ = sumAmounts l₂ := by
  unfold sumAmounts
  exact (h.map (fun r => cellNum r.amount)).sum_eq

/-- `total_income` redone over the raw (unsorted) session data. -/
theorem total_income_eq (data : DataFrame) :
    total_income data =
      sumAmounts (data.filter (fun r => decide (r.type = Cell.str "수입"))) :=
  sumAmounts_perm ((sortDesc_perm data).filter _)

/-- `total_expense` redone over the raw (unsorted) session data. -/
theorem total_expense_eq (data : DataFrame) :
    total_expense data =
      sumAmounts (data.filter (fun r => decide (r.type = Cell.str "지출"))) :=
  sumAmounts_perm ((sortDesc_perm data).filter _)

theorem cumsumFrom_getLast (a : ℚ) (l : List ℚ) (h : l ≠ []) :
    (cumsumFrom a l).getLast? = some (a + l.sum) := by
  induction l generalizing a with
  | nil => exact absurd rfl h
  | cons x xs ih =>
    cases xs with
    | nil => simp [cumsumFrom]
    | cons y ys =>
      rw [show cumsumFrom a (x :: y :: ys) = (a + x) :: cumsumFrom (a + x) (y :: ys) from rfl]
      rw [show cumsumFrom (a + x) (y :: ys) = (a + x + y) :: cumsumFrom (a + x + y) ys from rfl]
      rw [List.getLast?_cons_cons]
      rw [show (a + x + y) :: cumsumFrom (a + x + y) ys = cumsumFrom (a + x) (y :: ys) from rfl]
      rw [ih (a + x) (by simp)]
      simp [add_assoc]

/-- Splitting the signed-amount sum over a frame in which every row is
labelled income or expense. -/
theorem signed_sum_split (l : DataFrame)
    (hty : ∀ r ∈ l, r.type = Cell.str "수입" ∨ r.type = Cell.str "지출") :
    (l.map signedAmount).sum =
      sumAmounts (l.filter (fun r => decide (r.type = Cell.str "수입"))) -
        sumAmounts (l.filter (fun r => decide (r.type = Cell.str "지출"))) := by
  induction l with
  | nil => simp [sumAmounts]
  | cons r t ih =>
    have ht : ∀ x ∈ t, x.type = Cell.str "수입" ∨ x.type = Cell.str "지출" :=
      fun x hx => hty x (List.mem_cons_of_mem r hx)
    have hih := ih ht
    rcases hty r (List.mem_cons_self r t) with h | h
    · have e1 : List.filter (fun x => decide (x.type = Cell.str "수입")) (r :: t)
          = r :: List.filter (fun x => decide (x.type = Cell.str "수입")) t := by
        rw [List.filter_cons, show (decide (r.type = Cell.str "수입")) = true by rw [h]; decide]
        simp
      have e2 : List.filter (fun x => decide (x.type = Cell.str "지출")) (r :: t)
          = List.filter (fun x => decide (x.type = Cell.str "지출")) t := by
        rw [List.filter_cons, show (decide (r.type = Cell.str "지출")) = false by rw [h]; decide]
        simp
      have e3 : signedAmount r = cellNum r.amount := by rw [signedAmount, if_pos h]
      rw [List.map_cons, List.sum_cons, e3, hih, e1, e2]
      simp only [sumAmounts, List.map_cons, List.sum_cons]
      ring
    · have e1 : List.filter (fun x => decide (x.type = Cell.str "수입")) (r :: t)
          = List.filter (fun x => decide (x.type = Cell.str "수입")) t := by
        rw [List.filter_cons, show (decide (r.type = Cell.str "수입")) = false by rw [h]; decide]
        simp
      have e2 : List.filter (fun x => decide (x.type = Cell.str "지출")) (r :: t)
          = r :: List.filter (fun x => decide (x.type = Cell.str "지출")) t := by
        rw [List.filter_cons, show (decide (r.type = Cell.str "지출")) = true by rw [h]; decide]
        simp
      have hne : ¬(r.type = Cell.str "수입") := by rw [h]; decide
      have e3 : signedAmount r = -(cellNum r.amount) := by rw [signedAmount, if_neg hne]
      rw [List.map_cons, List.sum_cons, e3, hih, e1, e2]
      simp only [sumAmounts, List.map_cons, List.sum_cons]
      ring

/-! ### Export/import round-trip machinery -/

theorem zipRows_proj (l : DataFrame) :
    zipRows (l.map (fun r => r.date)) (l.map (fun r => r.type)) (l.map (fun r => r.category))
      (l.map (fun r => r.amount)) (l.map (fun r => r.note)) = l := by
  induction l with
  | nil => rfl
  | cons r t ih => simp only [List.map_cons, zipRows, ih]

theorem colRaw_export_date (data : DataFrame) :
    colRaw (exportCSV data) "date" = (sortedView data).map (fun r => serializeCell r.date) := by
  simp only [colRaw, exportCSV, List.map_map]
  rfl

theorem colRaw_export_type (data : DataFrame) :
    colRaw (exportCSV data) "type" = (sortedView data).map (fun r => serializeCell r.type) := by
  simp only [colRaw, exportCSV, List.map_map]
  rfl

theorem colRaw_export_category (data : DataFrame) :
    colRaw (exportCSV data) "category"
      = (sortedView data).map (fun r => serializeCell r.category) := by
  simp only [colRaw, exportCSV, List.map_map]
  rfl

theorem colRaw_export_amount (data : DataFrame) :
    colRaw (exportCSV data) "amount"
      = (sortedView data).map (fun r => serializeCell r.amount) := by
  simp only [colRaw, exportCSV, List.map_map]
  rfl

theorem colRaw_export_note (data : DataFrame) :
    colRaw (exportCSV data) "note" = (sortedView data).map (fun r => serializeCell r.note) := by
  simp only [colRaw, exportCSV, List.map_map]
  rfl

/-- Importing an export succeeds and reproduces the sorted view exactly
whenever each serialized column re-parses to its original cells. -/
theorem importCSV_export (prior data : DataFrame)
    (hd : parseDateColumn ((sortedView data).map (fun r => serializeCell r.date))
        = (sortedView data).map (fun r => r.date))
    (ht : inferColumn ((sortedView data).map (fun r => serializeCell r.type))
        = (sortedView data).map (fun r => r.type))
    (hc : inferColumn ((sortedView data).map (fun r => serializeCell r.category))
        = (sortedView data).map (fun r => r.category))
    (ha : inferColumn ((sortedView data).map (fun r => serializeCell r.amount))
        = (sortedView data).map (fun r => r.amount))
    (hn : inferColumn ((sortedView data).map (fun r => serializeCell r.note))
        = (sortedView data).map (fun r => r.note)) :
    importCSV prior (exportCSV data) = (sortedView data, ImportResult.success) := by
  rw [importCSV]
  rw [if_pos (show "date" ∈ (exportCSV data).header by
    rw [show (exportCSV data).header = requiredCols from rfl]; decide)]
  rw [if_pos (show requiredCols.all (fun c => (exportCSV data).header.contains c) = true by
    rw [show (exportCSV data).header = requiredCols from rfl]; decide)]
  rw [buildRows, colRaw_export_date, colRaw_export_type, colRaw_export_category,
    colRaw_export_amount, colRaw_export_note, hd, ht, hc, ha, hn, zipRows_proj]

/-! ### The claims -/

/-- An upload whose single row carries the negative amount `-5`. -/
def csvC1 : CSVFile := ⟨requiredCols, [["2024-01-01", "지출", "식비", "-5", "x"]]⟩

/-- Does some entry of the frame carry a negative (numeric) amount? -/
def hasNegativeAmount (data : DataFrame) : Bool :=
  data.any (fun r =>
    match r.amount with
    | Cell.num q => decide (q < 0)
    | _ => false)

/-- C1 is refuted on the code: the CSV upload handler validates only the
column set, never the amount values, so one `importFrom` from the empty
ledger reaches a state whose entry has amount `-5` — the claimed invariant
`amount >= 0` fails for reachable states (the entry form alone does
enforce it via `min_value=0`). -/
theorem import_reaches_negative_amount :
    reach [Op.importOp csvC1]
        = [⟨Cell.dt 20240101, Cell.str "지출", Cell.str "식비", Cell.num (-5), Cell.str "x"⟩] ∧
    hasNegativeAmount (reach [Op.importOp csvC1]) = true := by decide

/-- An upload with the full schema but an unparseable amount cell. -/
def csvC2 : CSVFile := ⟨requiredCols, [["2024-01-01", "지출", "식비", "abc", "점심"]]⟩

/-- An upload with the full schema but an unparseable date cell. -/
def csvC2d : CSVFile := ⟨requiredCols, [["2024-13-99", "지출", "식비", "500", "점심"]]⟩

/-- C2 is refuted on the code: a row with a malformed amount (or date) does
not fail the import — `read_csv` keeps the cell as a raw string, the
column check passes, the ledger is wholesale-replaced by the malformed
rows and the handler reports success, instead of rejecting the input with
the originating error and adding no row. -/
theorem import_accepts_malformed_cells :
    importCSV [] csvC2
        = ([⟨Cell.dt 20240101, Cell.str "지출", Cell.str "식비", Cell.str "abc", Cell.str "점심"⟩],
           ImportResult.success) ∧
    importCSV [] csvC2d
        = ([⟨Cell.str "2024-13-99", Cell.str "지출", Cell.str "식비", Cell.num 500,
           Cell.str "점심"⟩],
           ImportResult.success) := by decide

def rowOld : Row := ⟨Cell.dt 20240101, Cell.str "지출", Cell.str "식비", Cell.num 1000, Cell.str ""⟩

def rowNew : Row := ⟨Cell.dt 20240102, Cell.str "수입", Cell.str "용돈", Cell.num 2000, Cell.str ""⟩

/-- Two entries added oldest-first, so that the displayed descending-date
view reverses the stored insertion order. -/
def dataC3 : DataFrame := [rowOld, rowNew]

/-- C3 is refuted on the code: the delete handler offers the indices of the
descending-date view but applies `drop` to the insertion-ordered stored
frame.  On `dataC3`, view index 0 is `rowNew`, yet deleting `{0}` removes
`rowOld` (stored position 0) and keeps `rowNew` — not the entry at view
index 0 as the claim states. -/
theorem delete_targets_insertion_order :
    reach [Op.add 20240101 "지출" "식비" 1000 "", Op.add 20240102 "수입" "용돈" 2000 ""]
        = dataC3 ∧
    sortDesc dataC3 = [rowNew, rowOld] ∧
    deleteByIndices dataC3 [0] = ([rowNew], DeleteResult.deleted) ∧
    [rowNew] ≠ [rowOld] := by decide

/-- A one-entry ledger produced by the entry form with a blank note. -/
def dataC4 : DataFrame :=
  [⟨Cell.dt 20240101, Cell.str "지출", Cell.str "식비", Cell.num 1000, Cell.str ""⟩]

/-- C4 counterexample: a ledger whose entry has the empty-string note (what
the form stores when the note field is left blank) does not round-trip —
`to_csv` writes the note as an empty field and `read_csv` reads it back as
NaN, so the re-imported multiset of entries differs from the original. -/
theorem roundTrip_empty_note_fails :
    reach [Op.add 20240101 "지출" "식비" 1000 ""] = dataC4 ∧
    importCSV dataC4 (exportCSV dataC4)
        = ([⟨Cell.dt 20240101, Cell.str "지출", Cell.str "식비", Cell.num 1000, Cell.nan⟩],
           ImportResult.success) ∧
    ¬(importCSV dataC4 (exportCSV dataC4)).1.Perm dataC4 := by
  refine ⟨by decide, by decide, ?_⟩
  intro hperm
  rw [show (importCSV dataC4 (exportCSV dataC4)).1
      = [⟨Cell.dt 20240101, Cell.str "지출", Cell.str "식비", Cell.num 1000, Cell.nan⟩]
      from by decide] at hperm
  rw [show dataC4
      = [⟨Cell.dt 20240101, Cell.str "지출", Cell.str "식비", Cell.num 1000, Cell.str ""⟩]
      from rfl] at hperm
  exact absurd (List.perm_singleton.mp hperm) (by decide)

/-- C4 (amended): `importFrom(exportTo(L))` succeeds and yields the same
multiset of entries as `L` whenever every serialized column re-parses to
its original cells — in particular when no cell is an empty string (which
comes back as NaN) and no text cell is numeric- or date-shaped. -/
theorem roundTrip_of_column_reparse (prior data : DataFrame)
    (hd : parseDateColumn ((sortedView data).map (fun r => serializeCell r.date))
        = (sortedView data).map (fun r => r.date))
    (ht : inferColumn ((sortedView data).map (fun r => serializeCell r.type))
        = (sortedView data).map (fun r => r.type))
    (hc : inferColumn ((sortedView data).map (fun r => serializeCell r.category))
        = (sortedView data).map (fun r => r.category))
    (ha : inferColumn ((sortedView data).map (fun r => serializeCell r.amount))
        = (sortedView data).map (fun r => r.amount))
    (hn : inferColumn ((sortedView data).map (fun r => serializeCell r.note))
        = (sortedView data).map (fun r => r.note)) :
    (importCSV prior (exportCSV data)).2 = ImportResult.success ∧
    (importCSV prior (exportCSV data)).1.Perm data := by
  rw [importCSV_export prior data hd ht hc ha hn]
  exact ⟨rfl, sortedView_perm data⟩

/-- A two-entry ledger whose cells all survive CSV serialization. -/
def dataC4w : DataFrame :=
  [⟨Cell.dt 20240102, Cell.str "수입", Cell.str "용돈", Cell.num 10000, Cell.str "메모"⟩,
   ⟨Cell.dt 20240101, Cell.str "지출", Cell.str "식비", Cell.num 5000, Cell.str "점심"⟩]

/-- Witness for the amended C4 at a concrete two-entry ledger. -/
theorem roundTrip_of_column_reparse_witness :
    (parseDateColumn ((sortedView dataC4w).map (fun r => serializeCell r.date))
        = (sortedView dataC4w).map (fun r => r.date)) ∧
    (inferColumn ((sortedView dataC4w).map (fun r => serializeCell r.type))
        = (sortedView dataC4w).map (fun r => r.type)) ∧
    (inferColumn ((sortedView dataC4w).map (fun r => serializeCell r.category))
        = (sortedView dataC4w).map (fun r => r.category)) ∧
    (inferColumn ((sortedView dataC4w).map (fun r => serializeCell r.amount))
        = (sortedView dataC4w).map (fun r => r.amount)) ∧
    (inferColumn ((sortedView dataC4w).map (fun r => serializeCell r.note))
        = (sortedView dataC4w).map (fun r => r.note)) ∧
    ((importCSV [] (exportCSV dataC4w)).2 = ImportResult.success ∧
     (importCSV [] (exportCSV dataC4w)).1.Perm dataC4w) :=
  ⟨by decide, by decide, by decide, by decide, by decide,
   roundTrip_of_column_reparse [] dataC4w (by decide) (by decide) (by decide) (by decide)
     (by decide)⟩

/-- An upload missing the `date` column (the other four present). -/
def csvC5 : CSVFile := ⟨["type", "category", "amount", "note"], [["지출", "식비", "100", "x"]]⟩

/-- C5 counterexample: when the missing required column is `date` itself,
`read_csv(parse_dates=["date"])` raises before the column check runs, so
the import is rejected through the generic load-failure branch, not with
the SchemaMismatch (missing-columns) error the claim names. -/
theorem import_missing_date_not_schemaMismatch :
    importCSV [] csvC5 = ([], ImportResult.loadFailure) ∧
    ImportResult.loadFailure ≠ ImportResult.schemaMismatch := by decide

/-- C5 (amended): an upload missing any required column is rejected
atomically — the session data is unchanged and the result is never
success; the reported error is SchemaMismatch exactly when the `date`
column is present (a missing `date` fails inside `read_csv` and surfaces
as the generic load error instead). -/
theorem import_missing_column_rejected (data : DataFrame) (f : CSVFile)
    (h : ¬(requiredCols.all (fun c => f.header.contains c) = true)) :
    (importCSV data f).1 = data ∧ (importCSV data f).2 ≠ ImportResult.success ∧
    ("date" ∈ f.header → (importCSV data f).2 = ImportResult.schemaMismatch) := by
  rw [importCSV]
  by_cases hdate : "date" ∈ f.header
  · rw [if_pos hdate, if_neg h]
    exact ⟨rfl, by simp, fun _ => rfl⟩
  · rw [if_neg hdate]
    exact ⟨rfl, by simp, fun hx => absurd hx hdate⟩

/-- An upload missing only the `note` column. -/
def csvC5w : CSVFile := ⟨["date", "type", "category", "amount"], [["2024-01-01", "지출", "식비", "100"]]⟩

/-- Witness for the amended C5: a file missing `note` is rejected with
SchemaMismatch and leaves the prior data unchanged. -/
theorem import_missing_column_rejected_witness :
    ¬(requiredCols.all (fun c => csvC5w.header.contains c) = true) ∧
    ((importCSV [] csvC5w).1 = [] ∧ (importCSV [] csvC5w).2 ≠ ImportResult.success ∧
     ("date" ∈ csvC5w.header → (importCSV [] csvC5w).2 = ImportResult.schemaMismatch)) :=
  ⟨by decide, import_missing_column_rejected [] csvC5w (by decide)⟩

/-- C6: the displayed balance equals `totalByType` at the income label minus
`totalByType` at the expense label, for every session frame — the code's
sums range over the sorted display copy, a permutation of the data. -/
theorem balance_eq_totalByType_sub (data : DataFrame) :
    balance data = totalByType data "수입" - totalByType data "지출" := by
  rw [balance, total_income_eq, total_expense_eq, totalByType, totalByType]

/-- An upload whose single row carries the type label `모름`, neither the
income nor the expense label. -/
def csvC7 : CSVFile := ⟨requiredCols, [["2024-01-01", "모름", "식비", "5", "x"]]⟩

def dataC7 : DataFrame :=
  [⟨Cell.dt 20240101, Cell.str "모름", Cell.str "식비", Cell.num 5, Cell.str "x"⟩]

/-- C7 counterexample: on a reachable non-empty ledger whose entry's type
label is neither `수입` nor `지출`, the signed-amount series counts the
entry as `-amount` while both totals ignore it, so the last running total
is `-5` but the balance is `0`. -/
theorem cumulative_last_misses_balance_on_unknown_type :
    reach [Op.importOp csvC7] = dataC7 ∧ dataC7 ≠ [] ∧
    cumulativeBalances dataC7 = [-5] ∧ balance dataC7 = 0 ∧
    (cumulativeBalances dataC7).getLast? ≠ some (balance dataC7) := by
  have hc : cumulativeBalances dataC7 = [-5] := by
    simp +decide [cumulativeBalances, dfTime, sortedView, sortAsc, sortDesc, insertAsc,
      insertDesc, cumsumFrom, signedAmount, cellNum, dataC7]
  have hb : balance dataC7 = 0 := by
    simp +decide [balance, total_income, total_expense, sortDesc, insertDesc, sumAmounts,
      cellNum, dataC7]
  refine ⟨by decide, by decide, hc, hb, ?_⟩
  rw [hc, hb]
  decide

/-- C7 (amended): for every non-empty ledger in which every entry carries
the income or the expense label, the last entry of the cumulative balance
series equals the balance. -/
theorem cumulative_last_eq_balance (data : DataFrame) (hne : data ≠ [])
    (hty : ∀ r ∈ data, r.type = Cell.str "수입" ∨ r.type = Cell.str "지출") :
    (cumulativeBalances data).getLast? = some (balance data) := by
  have hlen : ((dfTime data).map signedAmount).length = data.length := by
    rw [List.length_map]
    exact (sortedView_perm data).length_eq
  have hmapne : (dfTime data).map signedAmount ≠ [] := by
    intro hcon
    apply hne
    apply List.eq_nil_of_length_eq_zero
    rw [← hlen, hcon]
    rfl
  rw [cumulativeBalances, cumsumFrom_getLast 0 _ hmapne, zero_add]
  have hsum : ((dfTime data).map signedAmount).sum = (data.map signedAmount).sum :=
    ((sortedView_perm data).map signedAmount).sum_eq
  rw [hsum, signed_sum_split data hty, balance, total_income_eq, total_expense_eq]

/-- A well-labelled two-entry ledger for the C7 witness. -/
def dataC7w : DataFrame :=
  [⟨Cell.dt 20240101, Cell.str "지출", Cell.str "식비", Cell.num 5000, Cell.str ""⟩,
   ⟨Cell.dt 20240102, Cell.str "수입", Cell.str "용돈", Cell.num 10000, Cell.str ""⟩]

/-- Witness for the amended C7 at a concrete two-entry ledger. -/
theorem cumulative_last_eq_balance_witness :
    (dataC7w ≠ [] ∧ ∀ r ∈ dataC7w, r.type = Cell.str "수입" ∨ r.type = Cell.str "지출") ∧
    (cumulativeBalances dataC7w).getLast? = some (balance dataC7w) :=
  ⟨⟨by decide, by decide⟩, cumulative_last_eq_balance dataC7w (by decide) (by decide)⟩

/-- C9: deleting with the empty index selection is a no-op that surfaces the
`nothing selected` warning and leaves the session data untouched. -/
theorem delete_empty_noop (data : DataFrame) :
    deleteByIndices data [] = (data, DeleteResult.nothingSelected) := rfl

/-- C10: an entry whose type label is neither `수입` nor `지출` contributes
to neither displayed total nor to the balance — appending such a row to
any session frame leaves all three summary metrics unchanged. -/
theorem unknown_type_invisible_to_totals (data : DataFrame) (r : Row) (ty : String)
    (h1 : r.type = Cell.str ty) (h2 : ty ≠ "수입") (h3 : ty ≠ "지출") :
    total_income (data ++ [r]) = total_income data ∧
    total_expense (data ++ [r]) = total_expense data ∧
    balance (data ++ [r]) = balance data := by
  have hinc : List.filter (fun x => decide (x.type = Cell.str "수입")) [r] = [] := by
    rw [List.filter_cons]
    rw [show (decide (r.type = Cell.str "수입")) = false by rw [h1]; simp [h2]]
    simp
  have hexp : List.filter (fun x => decide (x.type = Cell.str "지출")) [r] = [] := by
    rw [List.filter_cons]
    rw [show (decide (r.type = Cell.str "지출")) = false by rw [h1]; simp [h3]]
    simp
  have e1 : total_income (data ++ [r]) = total_income data := by
    rw [total_income_eq, total_income_eq, List.filter_append, hinc, List.append_nil]
  have e2 : total_expense (data ++ [r]) = total_expense data := by
    rw [total_expense_eq, total_expense_eq, List.filter_append, hexp, List.append_nil]
  exact ⟨e1, e2, by rw [balance, balance, e1, e2]⟩

/-- An upload whose single row carries the unknown type label `이상`,
showing such states are reachable (the upload validates no type labels). -/
def csvC10 : CSVFile := ⟨requiredCols, [["2024-01-03", "이상", "식비", "7", "x"]]⟩

def rowC10 : Row := ⟨Cell.dt 20240103, Cell.str "이상", Cell.str "식비", Cell.num 7, Cell.str "x"⟩

/-- Witness for C10: the unknown-label state is reachable by one import, and
appending its row to the empty frame changes no summary metric. -/
theorem unknown_type_invisible_witness :
    (reach [Op.importOp csvC10] = [rowC10] ∧ rowC10.type = Cell.str "이상" ∧
     "이상" ≠ "수입" ∧ "이상" ≠ "지출") ∧
    (total_income ([] ++ [rowC10]) = total_income [] ∧
     total_expense ([] ++ [rowC10]) = total_expense [] ∧
     balance ([] ++ [rowC10]) = balance []) :=
  ⟨⟨by decide, by decide, by decide, by decide⟩,
   unknown_type_invisible_to_totals [] rowC10 "이상" (by decide) (by decide) (by decide)⟩

end MoneyApp
